import Mathlib

/-!
Shallow embedding of the syscall-mediated memory-grant and rendezvous-IPC
subsystem of this repository (src/kern/syscall.c and src/lib/ipc.c), together
with theorems settling the frozen claims about it.

The page-table walker, frame allocator, capability check (envid2env) and
user-memory checker live in kern/pmap.c and kern/env.c, which are not under
src/; they are modelled from their call contracts as stated in the spec
(external collaborators).  Everything under the Jos namespace below that
embeds a function of src/kern/syscall.c or src/lib/ipc.c follows that source
line by line, including its quirks.
-/

namespace Jos

/-- Page size, 4 KiB (inc/mmu.h). -/
def PGSIZE : Nat := 4096

/-- Present bit of a page-table entry (inc/mmu.h). -/
def PTE_P : Nat := 1

/-- Writable bit of a page-table entry (inc/mmu.h). -/
def PTE_W : Nat := 2

/-- User bit of a page-table entry (inc/mmu.h). -/
def PTE_U : Nat := 4

/-- Top of the user-accessible address range, the fixed user/kernel split
(inc/memlayout.h); page-aligned, and reused by the IPC protocol as the
"no page" sentinel. -/
def UTOP : Nat := 0xeec00000

/-- Environment status values (inc/env.h, not under src/; modelled as
distinct constants per the spec's status set {FREE, RUNNABLE, NOT_RUNNABLE,
DYING}). -/
def ENV_FREE : Nat := 0

/-- Status of an environment that is ready to be scheduled. -/
def ENV_RUNNABLE : Nat := 1

/-- Status of an environment that must not be scheduled. -/
def ENV_NOT_RUNNABLE : Nat := 2

/-- Status of an environment being torn down. -/
def ENV_DYING : Nat := 3

/-- The error codes of inc/error.h that the embedded operations return. -/
inductive Err
  | E_BAD_ENV
  | E_INVAL
  | E_NO_MEM
  | E_IPC_NOT_RECV
  | E_NO_FREE_ENV
deriving DecidableEq, Repr

/-- A saved user register file: the "return value" register eax, with the
remaining registers of struct Trapframe abstracted into one field (the
syscall layer only ever copies frames wholesale or writes reg_eax). -/
structure Trapframe where
  reg_eax : Nat
  reg_rest : Nat
deriving DecidableEq, Repr

/-- An address space: an association list from page-aligned virtual address
to page-table-entry word (frame number * PGSIZE + permission bits).  An
absent key stands for an absent/zero entry. -/
abbrev AddrSpace := List (Nat × Nat)

/-- The page-table-entry word mapped at va, 0 when nothing is mapped. -/
def aslookup (a : AddrSpace) (va : Nat) : Nat :=
  match a.find? (fun q => q.1 == va) with
  | some q => q.2
  | none => 0

/-- Remove any entry at va. -/
def asremove (a : AddrSpace) (va : Nat) : AddrSpace :=
  a.filter (fun q => q.1 != va)

/-- Modelled from the spec: the external page-table walker's lookup
(page_lookup of kern/pmap.c, not under src/): returns the frame mapped at
va together with the page-table entry, or nothing when no present page is
mapped there. -/
def page_lookup (a : AddrSpace) (va : Nat) : Option (Nat × Nat) :=
  let pte := aslookup a va
  if pte &&& PTE_P = PTE_P then some (pte / PGSIZE, pte) else none

/-- The physical-frame allocator's state: the free list and the per-frame
reference counts (an association list; an absent frame counts 0). -/
structure PhysState where
  free_list : List Nat
  refcnt : List (Nat × Nat)
deriving DecidableEq, Repr

/-- Reference count of a frame. -/
def getref (l : List (Nat × Nat)) (f : Nat) : Nat :=
  match l.find? (fun q => q.1 == f) with
  | some q => q.2
  | none => 0

/-- Set the reference count of a frame. -/
def setref (l : List (Nat × Nat)) (f n : Nat) : List (Nat × Nat) :=
  (f, n) :: l.filter (fun q => q.1 != f)

/-- Modelled from the spec: the external allocator's page_alloc (kern/pmap.c,
not under src/): take one frame off the free list, or fail when the list is
empty; the caller is responsible for the new frame's reference count. -/
def page_alloc (ph : PhysState) : Option (Nat × PhysState) :=
  match ph.free_list with
  | [] => none
  | f :: rest => some (f, { ph with free_list := rest })

/-- Modelled from the spec: increment a frame's reference count. -/
def incref (ph : PhysState) (f : Nat) : PhysState :=
  { ph with refcnt := setref ph.refcnt f (getref ph.refcnt f + 1) }

/-- Modelled from the spec: page_decref (kern/pmap.c, not under src/):
decrement a frame's reference count; a frame whose count reaches zero is
returned to the free list. -/
def decref (ph : PhysState) (f : Nat) : PhysState :=
  let r := getref ph.refcnt f
  if r ≤ 1 then { free_list := f :: ph.free_list, refcnt := setref ph.refcnt f 0 }
  else { ph with refcnt := setref ph.refcnt f (r - 1) }

/-- Modelled from the spec: the external page-table walker's page_insert
(kern/pmap.c, not under src/): map the frame at va with the given permission
bits plus present, replacing and dereferencing any prior occupant and taking
a reference on the new frame; may fail with out-of-memory (page-table
allocation), in which case nothing changes — the `noMem` oracle argument
selects that outcome. -/
def page_insert (noMem : Bool) (ph : PhysState) (a : AddrSpace)
    (frame va perm : Nat) : Option (PhysState × AddrSpace) :=
  if noMem then none
  else
    let ph1 := incref ph frame
    let pr : PhysState × AddrSpace :=
      match page_lookup a va with
      | some q => (decref ph1 q.1, asremove a va)
      | none => (ph1, a)
    some (pr.1, (va, frame * PGSIZE + (perm ||| PTE_P) % PGSIZE) :: pr.2)

/-- A process environment: the fields of struct Env (inc/env.h) that the
embedded syscalls read or write. -/
structure Env where
  env_id : Nat
  env_parent_id : Nat
  env_status : Nat
  env_pgdir : AddrSpace
  env_tf : Trapframe
  env_pgfault_upcall : Nat
  env_ipc_recving : Bool
  env_ipc_dstva : Nat
  env_ipc_from : Nat
  env_ipc_value : Nat
  env_ipc_perm : Nat
deriving DecidableEq, Repr

/-- Kernel state seen by one syscall: the current environment, the other
live environments, and the frame allocator. -/
structure Kernel where
  cur : Env
  envs : List Env
  ph : PhysState
deriving DecidableEq, Repr

/-- Modelled from the spec: the external capability check (envid2env of
kern/env.c, not under src/): envid 0 denotes the caller itself; otherwise
the handle must name a live environment, and when checkperm is set the
target must be the caller or one of its immediate children. -/
def envid2env (k : Kernel) (envid : Nat) (checkperm : Bool) : Option Env :=
  if envid = 0 then some k.cur
  else if envid = k.cur.env_id then some k.cur
  else
    match k.envs.find? (fun e => e.env_id == envid) with
    | none => none
    | some e =>
      if checkperm = true ∧ e.env_parent_id ≠ k.cur.env_id then none
      else some e

/-- The environment with the given id in a kernel state, the current one
taking precedence. -/
def Kernel.getEnv (k : Kernel) (envid : Nat) : Option Env :=
  if envid = k.cur.env_id then some k.cur
  else k.envs.find? (fun e => e.env_id == envid)

/-- Write back an updated environment into the kernel state, by id. -/
def Kernel.setEnv (k : Kernel) (e : Env) : Kernel :=
  if e.env_id = k.cur.env_id then { k with cur := e }
  else { k with envs := k.envs.map (fun x => if x.env_id = e.env_id then e else x) }

/-- Embedding of sys_env_set_status (src/kern/syscall.c).  Note the source
tests `env->env_status`, the target's current status, in its validity check
and then writes the `status` argument unconditionally. -/
def sys_env_set_status (k : Kernel) (envid status : Nat) : Except Err Unit × Kernel :=
  match envid2env k envid true with
  | none => (.error .E_BAD_ENV, k)
  | some env =>
    if env.env_status ≠ ENV_RUNNABLE ∧ env.env_status ≠ ENV_NOT_RUNNABLE then
      (.error .E_INVAL, k)
    else
      (.ok (), k.setEnv { env with env_status := status })

/-- Modelled from the spec: the external user-memory checker (user_mem_check
of kern/pmap.c, not under src/): every page covering the region from va
rounded down to va+len rounded up must be mapped with the requested
permission bits plus present in the given address space. -/
def user_mem_check (a : AddrSpace) (va len perm : Nat) : Bool :=
  let lo := va / PGSIZE * PGSIZE
  let hi := (va + len + PGSIZE - 1) / PGSIZE * PGSIZE
  (List.range ((hi - lo) / PGSIZE)).all
    (fun i => aslookup a (lo + i * PGSIZE) &&& (perm ||| PTE_P) == (perm ||| PTE_P))

/-- Outcome of sys_env_set_trapframe: an error return, the destruction of an
environment by user_mem_assert (which does not return to the faulting path),
or success. -/
inductive TfRes
  | err (e : Err)
  | destroyed (victim : Nat)
  | ok
deriving DecidableEq, Repr

/-- Embedding of sys_env_set_trapframe (src/kern/syscall.c).  `tf_addr` is
the frame pointer argument and `tf_val` the frame contents the copy would
read at that address in the caller.  The source calls
`user_mem_assert(env, tf, 0, PTE_P)` — the check runs over the target
environment's address space with length 0, and on failure destroys the
environment passed to it, i.e. the target. -/
def sys_env_set_trapframe (k : Kernel) (envid tf_addr : Nat) (tf_val : Trapframe) :
    TfRes × Kernel :=
  match envid2env k envid true with
  | none => (.err .E_BAD_ENV, k)
  | some env =>
    if user_mem_check env.env_pgdir tf_addr 0 PTE_P then
      (.ok, k.setEnv { env with env_tf := tf_val })
    else
      (.destroyed env.env_id, k)

/-- Embedding of sys_page_alloc (src/kern/syscall.c).  The `noMem` oracle
selects whether the page_insert collaborator fails.  Note the source checks
`UTOP < va`, not `va >= UTOP`, and its permission check only demands that
present and user be set.  The memset zeroing of the fresh frame is not
modelled (frame contents are outside the model). -/
def sys_page_alloc (noMem : Bool) (k : Kernel) (envid va perm : Nat) :
    Except Err Unit × Kernel :=
  if UTOP < va ∨ va % PGSIZE ≠ 0 then (.error .E_INVAL, k)
  else
    match envid2env k envid true with
    | none => (.error .E_BAD_ENV, k)
    | some env =>
      if (PTE_U ||| PTE_P) &&& perm ≠ (PTE_U ||| PTE_P) then (.error .E_INVAL, k)
      else
        match page_alloc k.ph with
        | none => (.error .E_NO_MEM, k)
        | some pr =>
          match page_insert noMem pr.2 env.env_pgdir pr.1 va perm with
          | none => (.error .E_NO_MEM, { k with ph := pr.2 })
          | some ins =>
            (.ok (), ({ k with ph := ins.1 }).setEnv { env with env_pgdir := ins.2 })

/-- Embedding of sys_page_map (src/kern/syscall.c).  Handle resolution comes
first in the source, then the address checks (again `UTOP < va`), then the
source-mapping lookup, the present+user test on the source entry, the
no-write-escalation test, and the insertion. -/
def sys_page_map (noMem : Bool) (k : Kernel)
    (srcenvid srcva dstenvid dstva perm : Nat) : Except Err Unit × Kernel :=
  match envid2env k srcenvid true with
  | none => (.error .E_BAD_ENV, k)
  | some srcenv =>
    match envid2env k dstenvid true with
    | none => (.error .E_BAD_ENV, k)
    | some dstenv =>
      if UTOP < srcva ∨ srcva % PGSIZE ≠ 0 ∨ UTOP < dstva ∨ dstva % PGSIZE ≠ 0 then
        (.error .E_INVAL, k)
      else
        match page_lookup srcenv.env_pgdir srcva with
        | none => (.error .E_INVAL, k)
        | some pg =>
          if (PTE_U ||| PTE_P) &&& pg.2 ≠ (PTE_U ||| PTE_P) then (.error .E_INVAL, k)
          else if PTE_W &&& perm = PTE_W ∧ PTE_W &&& pg.2 ≠ PTE_W then (.error .E_INVAL, k)
          else
            match page_insert noMem k.ph dstenv.env_pgdir pg.1 dstva perm with
            | none => (.error .E_NO_MEM, k)
            | some ins =>
              (.ok (), ({ k with ph := ins.1 }).setEnv { dstenv with env_pgdir := ins.2 })

/-- Embedding of sys_page_unmap (src/kern/syscall.c): address check (again
`UTOP < va`), handle resolution, then a silent no-op unless a page with a
nonzero entry is mapped, in which case the entry is cleared and the frame
dereferenced. -/
def sys_page_unmap (k : Kernel) (envid va : Nat) : Except Err Unit × Kernel :=
  if UTOP < va ∨ va % PGSIZE ≠ 0 then (.error .E_INVAL, k)
  else
    match envid2env k envid true with
    | none => (.error .E_BAD_ENV, k)
    | some env =>
      match page_lookup env.env_pgdir va with
      | none => (.ok (), k)
      | some pg =>
        if pg.2 ≠ 0 then
          (.ok (), ({ k with ph := decref k.ph pg.1 }).setEnv
            { env with env_pgdir := asremove env.env_pgdir va })
        else (.ok (), k)

/-- Embedding of sys_ipc_try_send (src/kern/syscall.c): resolution without
authorization, the receiver-readiness test, then — only when both srcva and
the receiver's requested dstva lie strictly below UTOP — the page-transfer
path with its alignment, lookup, present+user and no-write-escalation tests
and the insertion; finally the common success tail that fills the receiver's
IPC fields, zeroes its saved eax and marks it RUNNABLE. -/
def sys_ipc_try_send (noMem : Bool) (k : Kernel)
    (envid value srcva perm : Nat) : Except Err Unit × Kernel :=
  match envid2env k envid false with
  | none => (.error .E_BAD_ENV, k)
  | some dstenv =>
    if dstenv.env_status ≠ ENV_NOT_RUNNABLE ∨ dstenv.env_ipc_recving = false then
      (.error .E_IPC_NOT_RECV, k)
    else if srcva < UTOP ∧ dstenv.env_ipc_dstva < UTOP then
      if srcva % PGSIZE ≠ 0 then (.error .E_INVAL, k)
      else
        match page_lookup k.cur.env_pgdir srcva with
        | none => (.error .E_INVAL, k)
        | some pg =>
          if pg.2 = 0 then (.error .E_INVAL, k)
          else if (PTE_U ||| PTE_P) &&& pg.2 ≠ (PTE_U ||| PTE_P) then (.error .E_INVAL, k)
          else if perm &&& PTE_W = PTE_W ∧ PTE_W &&& pg.2 ≠ PTE_W then (.error .E_INVAL, k)
          else
            match page_insert noMem k.ph dstenv.env_pgdir pg.1 dstenv.env_ipc_dstva perm with
            | none => (.error .E_NO_MEM, k)
            | some ins =>
              (.ok (), ({ k with ph := ins.1 }).setEnv
                { dstenv with
                  env_pgdir := ins.2, env_ipc_perm := perm,
                  env_ipc_value := value, env_ipc_recving := false,
                  env_ipc_from := k.cur.env_id,
                  env_tf := { dstenv.env_tf with reg_eax := 0 },
                  env_status := ENV_RUNNABLE })
    else
      (.ok (), k.setEnv
        { dstenv with
          env_ipc_perm := 0, env_ipc_value := value, env_ipc_recving := false,
          env_ipc_from := k.cur.env_id,
          env_tf := { dstenv.env_tf with reg_eax := 0 },
          env_status := ENV_RUNNABLE })

/-- Embedding of sys_ipc_recv (src/kern/syscall.c): a dstva strictly below
UTOP must be page-aligned and is recorded as the mapping target; any other
dstva is normalized to the UTOP sentinel; then the caller marks itself as
receiving and NOT_RUNNABLE. -/
def sys_ipc_recv (k : Kernel) (dstva : Nat) : Except Err Unit × Kernel :=
  if dstva < UTOP then
    if dstva % PGSIZE ≠ 0 then (.error .E_INVAL, k)
    else
      (.ok (), { k with cur :=
        { k.cur with env_ipc_dstva := dstva, env_ipc_recving := true,
                     env_status := ENV_NOT_RUNNABLE } })
  else
    (.ok (), { k with cur :=
      { k.cur with env_ipc_dstva := UTOP, env_ipc_recving := true,
                   env_status := ENV_NOT_RUNNABLE } })

/-- Outcome of the user-level ipc_send loop: the loop exits after some
number of sys_yield calls, or the environment aborts on an error (the
behaviour the library documentation prescribes for errors other than
receiver-not-ready), or the supplied result trace ends with the loop still
retrying. -/
inductive LibOutcome
  | done (yields : Nat)
  | aborted (e : Err)
  | looping
deriving DecidableEq, Repr

/-- Embedding of the loop of ipc_send (src/lib/ipc.c), applied to the list
of results that the successive sys_ipc_try_send attempts return: the source
loops `while (0 != (r = sys_ipc_try_send(...))) sys_yield();`, yielding and
retrying after every nonzero result and exiting only on 0; no result makes
it abort. -/
def ipc_send : List (Except Err Unit) → LibOutcome
  | [] => .looping
  | .ok _ :: _ => .done 0
  | .error _ :: rest =>
    match ipc_send rest with
    | .done n => .done (n + 1)
    | .aborted e => .aborted e
    | .looping => .looping

/-- Embedding of the page-argument normalization of ipc_send and ipc_recv
(src/lib/ipc.c): a null page pointer becomes the UTOP sentinel. -/
def ipc_lib_pg (pg : Option Nat) : Nat :=
  match pg with
  | none => UTOP
  | some p => p

/-- Modelled from the spec: the external scheduler (kern/sched.c, not under
src/) hands control only to environments whose status is RUNNABLE; a
NOT_RUNNABLE environment is never resumed. -/
def Resumable (e : Env) : Prop := e.env_status = ENV_RUNNABLE

/-- One interference step on a waiting receiver between its Receive call and
its resumption: some other environment attempts sys_ipc_try_send against it
(with arbitrary arguments, allocator state and insertion outcome).  The
receiver's record is mutated by other environments only through this path
in the IPC protocol of the spec; a failed attempt leaves it unchanged. -/
def sendStep (r r' : Env) : Prop :=
  ∃ (sender : Env) (ph : PhysState) (noMem : Bool) (v s p : Nat),
    sender.env_id ≠ r.env_id ∧ r.env_id ≠ 0 ∧
    (sys_ipc_try_send noMem ⟨sender, [r], ph⟩ r.env_id v s p).2.envs = [r']

/-- The receiver states reachable by any number of send attempts. -/
def ReachBySends (r r' : Env) : Prop := Relation.ReflTransGen sendStep r r'

/-- A convenience constructor for the concrete environments the closed
evaluation theorems run the embedded code on. -/
def mkEnv (i pa st : Nat) (a : AddrSpace) : Env :=
  { env_id := i, env_parent_id := pa, env_status := st, env_pgdir := a,
    env_tf := ⟨0, 0⟩, env_pgfault_upcall := 0, env_ipc_recving := false,
    env_ipc_dstva := 0, env_ipc_from := 0, env_ipc_value := 0, env_ipc_perm := 0 }

/-- A waiting receiver: NOT_RUNNABLE, receiving, with the given requested
destination address. -/
def mkRecvEnv (i pa dstva : Nat) : Env :=
  { mkEnv i pa ENV_NOT_RUNNABLE [] with env_ipc_recving := true, env_ipc_dstva := dstva }

/-- Test state for the C1 page_map counterpart: the caller (id 1) has a
read-only page (frame 7, present+user) at va 4096 and a child (id 2). -/
def K1m : Kernel :=
  { cur := mkEnv 1 0 ENV_RUNNABLE [(4096, 7 * PGSIZE + (PTE_P ||| PTE_U))],
    envs := [mkEnv 2 1 ENV_NOT_RUNNABLE []],
    ph := { free_list := [9], refcnt := [(7, 1)] } }

/-- Test state for the C1 ipc counterpart: the caller holds the same
read-only page and environment 2 waits with a page requested at va 0. -/
def K1i : Kernel :=
  { cur := mkEnv 1 0 ENV_RUNNABLE [(4096, 7 * PGSIZE + (PTE_P ||| PTE_U))],
    envs := [mkRecvEnv 2 1 0],
    ph := { free_list := [9], refcnt := [(7, 1)] } }

/-- Test state for C2/C3: environment 2 waits with no page requested (its
dstva is the UTOP sentinel); environment 3 is idle. -/
def K2 : Kernel :=
  { cur := mkEnv 1 0 ENV_RUNNABLE [],
    envs := [mkRecvEnv 2 1 UTOP, mkEnv 3 1 ENV_RUNNABLE []],
    ph := { free_list := [9], refcnt := [] } }

/-- Test state for C4: one free frame (7) and an empty caller address
space. -/
def K4 : Kernel :=
  { cur := mkEnv 1 0 ENV_RUNNABLE [],
    envs := [],
    ph := { free_list := [7], refcnt := [] } }

/-- Test state for C5: a child (id 2) currently RUNNABLE. -/
def K5 : Kernel :=
  { cur := mkEnv 1 0 ENV_RUNNABLE [],
    envs := [mkEnv 2 1 ENV_RUNNABLE []],
    ph := { free_list := [], refcnt := [] } }

/-- Test state for C6's page_map conjunct: the caller has a present+user
page at va 4096 and a child (id 2) with an empty address space. -/
def K6m : Kernel :=
  { cur := mkEnv 1 0 ENV_RUNNABLE [(4096, 7 * PGSIZE + (PTE_P ||| PTE_U))],
    envs := [mkEnv 2 1 ENV_NOT_RUNNABLE []],
    ph := { free_list := [9], refcnt := [(7, 1)] } }

/-- Test state for C7's ipc conjunct: the caller holds a writable
present+user page at va 4096 and environment 2 waits with a page requested
at va 0. -/
def K7i : Kernel :=
  { cur := mkEnv 1 0 ENV_RUNNABLE [(4096, 7 * PGSIZE + (PTE_P ||| PTE_U ||| PTE_W))],
    envs := [mkRecvEnv 2 1 0],
    ph := { free_list := [9], refcnt := [(7, 1)] } }

/-- Test state for C8/C10: a plain caller (id 1) with an empty address space
and a child (id 2), also with an empty address space. -/
def K8 : Kernel :=
  { cur := mkEnv 1 0 ENV_RUNNABLE [],
    envs := [mkEnv 2 1 ENV_NOT_RUNNABLE []],
    ph := { free_list := [], refcnt := [] } }

/-- Test state for C5's second conjunct: a child (id 2) in the DYING
status. -/
def K5d : Kernel :=
  { cur := mkEnv 1 0 ENV_RUNNABLE [],
    envs := [mkEnv 2 1 ENV_DYING []],
    ph := { free_list := [], refcnt := [] } }

/-- The invariant a waiting receiver satisfies under send attempts: it is
either still blocked waiting, or it has been woken exactly as a completed
Receive would look — RUNNABLE with saved return value zero and the
receiving flag cleared. -/
def RecvInv (e : Env) : Prop :=
  (e.env_status = ENV_NOT_RUNNABLE ∧ e.env_ipc_recving = true) ∨
  (e.env_status = ENV_RUNNABLE ∧ e.env_tf.reg_eax = 0 ∧ e.env_ipc_recving = false)

/-- A present page-table entry returned by page_lookup carries the present
bit and is nonzero. -/
theorem page_lookup_props (a : AddrSpace) (va : Nat) (pg : Nat × Nat)
    (h : page_lookup a va = some pg) : pg.2 &&& PTE_P = PTE_P ∧ pg.2 ≠ 0 := by
  simp only [page_lookup] at h
  split at h
  · rename_i hp
    cases h
    dsimp only
    exact ⟨hp, fun h0 => by rw [h0] at hp; simp [PTE_P] at hp⟩
  · cases h

/-- An environment returned by the capability check is the caller or is
present (by id) in the kernel's environment list. -/
theorem envid2env_mem (k : Kernel) (envid : Nat) (cp : Bool) (e : Env)
    (h : envid2env k envid cp = some e) :
    e.env_id = k.cur.env_id ∨ ∃ d ∈ k.envs, d.env_id = e.env_id := by
  unfold envid2env at h
  by_cases h0 : envid = 0
  · rw [if_pos h0] at h; cases h; exact Or.inl rfl
  · rw [if_neg h0] at h
    by_cases h1 : envid = k.cur.env_id
    · rw [if_pos h1] at h; cases h; exact Or.inl rfl
    · rw [if_neg h1] at h
      cases hfind : k.envs.find? (fun e => e.env_id == envid) with
      | none => rw [hfind] at h; cases h
      | some d =>
        rw [hfind] at h
        dsimp only at h
        by_cases hcp : cp = true ∧ d.env_parent_id ≠ k.cur.env_id
        · rw [if_pos hcp] at h; cases h
        · rw [if_neg hcp] at h
          cases h
          exact Or.inr ⟨e, List.mem_of_find?_eq_some hfind, rfl⟩

/-- Replacing every list element whose id matches e and then searching for
that id finds e, provided some element had the id. -/
theorem find?_map_replace (e : Env) :
    ∀ l : List Env, (∃ d ∈ l, d.env_id = e.env_id) →
      (l.map (fun x => if x.env_id = e.env_id then e else x)).find?
        (fun x => x.env_id == e.env_id) = some e := by
  intro l
  induction l with
  | nil => rintro ⟨d, hd, _⟩; cases hd
  | cons a t ih =>
    rintro ⟨d, hd, hde⟩
    by_cases ha : a.env_id = e.env_id
    · simp [List.find?_cons, ha]
    · rcases List.mem_cons.mp hd with rfl | hdt
      · exact absurd hde ha
      · simp only [List.map_cons, if_neg ha]
        rw [List.find?_cons_of_neg _ (by simp [ha])]
        exact ih ⟨d, hdt, hde⟩

/-- Writing back an environment whose id is present in the kernel makes it
the one getEnv retrieves at that id. -/
theorem getEnv_setEnv (k : Kernel) (e : Env)
    (h : e.env_id = k.cur.env_id ∨ ∃ d ∈ k.envs, d.env_id = e.env_id) :
    (k.setEnv e).getEnv e.env_id = some e := by
  unfold Kernel.setEnv
  by_cases hc : e.env_id = k.cur.env_id
  · rw [if_pos hc]
    unfold Kernel.getEnv
    simp
  · rw [if_neg hc]
    rcases h with h | h
    · exact absurd h hc
    · unfold Kernel.getEnv
      dsimp only
      rw [if_neg hc]
      exact find?_map_replace e k.envs h

/-- A single send attempt against a receiver preserves RecvInv: a failed
attempt leaves the receiver untouched, and a successful one wakes it exactly
as a completed Receive — RUNNABLE, saved eax zero, receiving flag off. -/
theorem sendStep_preserves_recvInv (r r' : Env) (h : RecvInv r) (hs : sendStep r r') :
    RecvInv r' := by
  obtain ⟨sender, ph, noMem, v, s, p, hne, hnz, heq⟩ := hs
  have hrs : ¬ (r.env_id = sender.env_id) := fun hh => hne hh.symm
  have h1 : envid2env ⟨sender, [r], ph⟩ r.env_id false = some r := by
    unfold envid2env
    rw [if_neg hnz, if_neg hrs]
    simp [List.find?]
  unfold sys_ipc_try_send at heq
  rw [h1] at heq
  dsimp only at heq
  rcases h with ⟨hst, hrv⟩ | ⟨hst, hax, hrv⟩
  · rw [if_neg (by rw [hst, hrv]; simp)] at heq
    by_cases hpg : s < UTOP ∧ r.env_ipc_dstva < UTOP
    · rw [if_pos hpg] at heq
      by_cases hal : s % PGSIZE ≠ 0
      · rw [if_pos hal] at heq
        dsimp only at heq
        injection heq with h2 _
        exact h2 ▸ Or.inl ⟨hst, hrv⟩
      · rw [if_neg hal] at heq
        cases hpl : page_lookup sender.env_pgdir s with
        | none =>
          rw [hpl] at heq; dsimp only at heq
          injection heq with h2 _
          exact h2 ▸ Or.inl ⟨hst, hrv⟩
        | some pg =>
          rw [hpl] at heq
          dsimp only at heq
          by_cases hz : pg.2 = 0
          · rw [if_pos hz] at heq; dsimp only at heq
            injection heq with h2 _
            exact h2 ▸ Or.inl ⟨hst, hrv⟩
          · rw [if_neg hz] at heq
            by_cases hpu : (PTE_U ||| PTE_P) &&& pg.2 ≠ (PTE_U ||| PTE_P)
            · rw [if_pos hpu] at heq; dsimp only at heq
              injection heq with h2 _
              exact h2 ▸ Or.inl ⟨hst, hrv⟩
            · rw [if_neg hpu] at heq
              by_cases hw : p &&& PTE_W = PTE_W ∧ PTE_W &&& pg.2 ≠ PTE_W
              · rw [if_pos hw] at heq; dsimp only at heq
                injection heq with h2 _
                exact h2 ▸ Or.inl ⟨hst, hrv⟩
              · rw [if_neg hw] at heq
                cases hins : page_insert noMem ph r.env_pgdir pg.1 r.env_ipc_dstva p with
                | none =>
                  rw [hins] at heq; dsimp only at heq
                  injection heq with h2 _
                  exact h2 ▸ Or.inl ⟨hst, hrv⟩
                | some ins =>
                  rw [hins] at heq
                  dsimp only at heq
                  unfold Kernel.setEnv at heq
                  dsimp only at heq
                  rw [if_neg hrs] at heq
                  rw [List.map_cons, List.map_nil, if_pos rfl] at heq
                  injection heq with h2 _
                  exact h2 ▸ Or.inr ⟨rfl, rfl, rfl⟩
    · rw [if_neg hpg] at heq
      unfold Kernel.setEnv at heq
      dsimp only at heq
      rw [if_neg hrs] at heq
      rw [List.map_cons, List.map_nil, if_pos rfl] at heq
      injection heq with h2 _
      exact h2 ▸ Or.inr ⟨rfl, rfl, rfl⟩
  · rw [if_pos (Or.inl (by rw [hst]; decide))] at heq
    dsimp only at heq
    injection heq with h2 _
    exact h2 ▸ Or.inr ⟨hst, hax, hrv⟩

/-- RecvInv is preserved along any sequence of send attempts. -/
theorem reach_preserves_recvInv (r r' : Env) (h : RecvInv r)
    (hr : ReachBySends r r') : RecvInv r' := by
  induction hr with
  | refl => exact h
  | tail _ hstep ih => exact sendStep_preserves_recvInv _ _ ih hstep

/-- C4: the claim says a frame acquired by sys_page_alloc must be released
when the insertion fails, so that a subsequent allocation can recover it.
The code returns out-of-memory without releasing it: run on a state with one
free frame (7) and a forced insertion failure, the call returns E_NO_MEM
with the free list empty, the frame mapped nowhere, its reference count
zero, and a subsequent allocation failing — the frame is leaked. -/
theorem page_alloc_insert_failure_leaks_frame :
    (sys_page_alloc true K4 0 4096 7).1 = .error .E_NO_MEM ∧
    (sys_page_alloc true K4 0 4096 7).2.ph.free_list = [] ∧
    page_alloc (sys_page_alloc true K4 0 4096 7).2.ph = none ∧
    (sys_page_alloc true K4 0 4096 7).2.cur.env_pgdir = [] ∧
    getref (sys_page_alloc true K4 0 4096 7).2.ph.refcnt 7 = 0 :=
  ⟨rfl, rfl, rfl, rfl, rfl⟩

/-- C5: the claim says sys_env_set_status validates the status ARGUMENT
(E_INVAL unless it is RUNNABLE or NOT_RUNNABLE, target unchanged; otherwise
write it and return 0).  The code instead validates the target's CURRENT
status and writes the argument unconditionally: setting a RUNNABLE child to
ENV_FREE succeeds and writes FREE, while setting a DYING child to the valid
value RUNNABLE is rejected with E_INVAL. -/
theorem set_status_checks_wrong_field :
    (sys_env_set_status K5 2 ENV_FREE).1 = .ok () ∧
    (sys_env_set_status K5 2 ENV_FREE).2.getEnv 2 =
      some { mkEnv 2 1 ENV_RUNNABLE [] with env_status := ENV_FREE } ∧
    (sys_env_set_status K5d 2 ENV_RUNNABLE).1 = .error .E_INVAL ∧
    (sys_env_set_status K5d 2 ENV_RUNNABLE).2 = K5d :=
  ⟨rfl, rfl, rfl, rfl⟩

/-- C6: the claim (and the source's own comments) say an address at or
above UTOP is rejected with E_INVAL before any mutation.  The code tests
`UTOP < va`, so va = UTOP itself is accepted: sys_page_alloc maps a page at
UTOP and returns 0, sys_page_map accepts UTOP as destination and returns 0,
and sys_page_unmap at UTOP returns 0 instead of E_INVAL. -/
theorem utop_boundary_off_by_one :
    (sys_page_alloc false K4 0 UTOP 7).1 = .ok () ∧
    aslookup (sys_page_alloc false K4 0 UTOP 7).2.cur.env_pgdir UTOP = 7 * PGSIZE + 7 ∧
    (sys_page_map false K6m 0 4096 2 UTOP 5).1 = .ok () ∧
    (sys_page_unmap K8 0 UTOP).1 = .ok () :=
  ⟨rfl, by decide, rfl, rfl⟩

/-- C7: the claim says a permission value carrying any bit outside
{present, user, writable} — or missing present or user — is rejected with
E_INVAL.  sys_page_alloc only tests that present and user are SET, so
perm = 13 (present, user, plus the stray bit 8) is accepted and the stray
bit lands in the installed entry; and sys_ipc_try_send never validates perm
at all: a page transfer with perm = 8 (missing BOTH present and user)
succeeds and records 8 as the transferred permission. -/
theorem perm_extra_bits_accepted :
    (sys_page_alloc false K4 0 4096 13).1 = .ok () ∧
    aslookup (sys_page_alloc false K4 0 4096 13).2.cur.env_pgdir 4096 = 7 * PGSIZE + 13 ∧
    (sys_ipc_try_send false K7i 2 99 4096 8).1 = .ok () ∧
    (∃ de', (sys_ipc_try_send false K7i 2 99 4096 8).2.getEnv 2 = some de' ∧
      de'.env_ipc_perm = 8 ∧ de'.env_status = ENV_RUNNABLE) :=
  ⟨rfl, by decide, rfl, ⟨_, rfl, rfl, rfl⟩⟩

/-- C9: the claim (and the library's own comment) say ipc_send retries only
the receiver-not-ready error and aborts the caller on any other negative
result.  The loop in the source retries after EVERY nonzero result: fed a
trace whose first attempt fails with E_BAD_ENV, it yields once and returns
after the second attempt instead of aborting; it loops forever on repeated
errors; and no result trace whatsoever can make it abort. -/
theorem ipc_send_lib_retries_all_errors :
    ipc_send [.error .E_BAD_ENV, .ok ()] = .done 1 ∧
    ipc_send [.error .E_NO_MEM] = .looping ∧
    ∀ rs : List (Except Err Unit), ∀ e : Err, ipc_send rs ≠ .aborted e := by
  refine ⟨rfl, rfl, ?_⟩
  intro rs
  induction rs with
  | nil => intro e h; exact LibOutcome.noConfusion h
  | cons a t ih =>
    intro e h
    match a with
    | .ok _ => exact LibOutcome.noConfusion h
    | .error e0 =>
      unfold ipc_send at h
      cases htt : ipc_send t with
      | done n => rw [htt] at h; exact LibOutcome.noConfusion h
      | aborted e1 => exact ih e1 htt
      | looping => rw [htt] at h; exact LibOutcome.noConfusion h

/-- C1: a grant requesting the writable bit when the grantor's own mapping
at the source address is not writable returns E_INVAL and performs no
mutation on either environment's address space: in sys_page_map for every
resolved source/destination pair, and in sys_ipc_try_send whenever a page
would actually be transferred (source below the split and the waiting
receiver asked for a page). -/
theorem no_write_escalation_on_grant :
    (∀ (noMem : Bool) (k : Kernel) (sid srcva did dstva perm : Nat)
       (se de : Env) (pg : Nat × Nat),
      envid2env k sid true = some se →
      envid2env k did true = some de →
      page_lookup se.env_pgdir srcva = some pg →
      PTE_W &&& perm = PTE_W →
      PTE_W &&& pg.2 ≠ PTE_W →
      sys_page_map noMem k sid srcva did dstva perm = (.error .E_INVAL, k)) ∧
    (∀ (noMem : Bool) (k : Kernel) (did value srcva perm : Nat)
       (de : Env) (pg : Nat × Nat),
      envid2env k did false = some de →
      de.env_status = ENV_NOT_RUNNABLE →
      de.env_ipc_recving = true →
      srcva < UTOP →
      de.env_ipc_dstva < UTOP →
      page_lookup k.cur.env_pgdir srcva = some pg →
      perm &&& PTE_W = PTE_W →
      PTE_W &&& pg.2 ≠ PTE_W →
      sys_ipc_try_send noMem k did value srcva perm = (.error .E_INVAL, k)) := by
  constructor
  · intro noMem k sid srcva did dstva perm se de pg hse hde hpl hw hnw
    unfold sys_page_map
    rw [hse]
    dsimp only
    rw [hde]
    dsimp only
    by_cases ha : UTOP < srcva ∨ srcva % PGSIZE ≠ 0 ∨ UTOP < dstva ∨ dstva % PGSIZE ≠ 0
    · rw [if_pos ha]
    · rw [if_neg ha, hpl]
      dsimp only
      by_cases hpu : (PTE_U ||| PTE_P) &&& pg.2 ≠ (PTE_U ||| PTE_P)
      · rw [if_pos hpu]
      · rw [if_neg hpu, if_pos ⟨hw, hnw⟩]
  · intro noMem k did value srcva perm de pg hde hst hrv hs hd hpl hw hnw
    unfold sys_ipc_try_send
    rw [hde]
    dsimp only
    rw [if_neg (by rw [hst, hrv]; simp), if_pos ⟨hs, hd⟩]
    by_cases hal : srcva % PGSIZE ≠ 0
    · rw [if_pos hal]
    · rw [if_neg hal, hpl]
      dsimp only
      rw [if_neg (page_lookup_props _ _ _ hpl).2]
      by_cases hpu : (PTE_U ||| PTE_P) &&& pg.2 ≠ (PTE_U ||| PTE_P)
      · rw [if_pos hpu]
      · rw [if_neg hpu, if_pos ⟨hw, hnw⟩]

/-- Witness for C1: mapping the caller's read-only page writable into a
child via sys_page_map, and sending it writable via sys_ipc_try_send to a
waiting receiver, both return E_INVAL and leave the kernel untouched. -/
theorem no_write_escalation_on_grant_witness :
    sys_page_map false K1m 0 4096 2 8192 7 = (.error .E_INVAL, K1m) ∧
    sys_ipc_try_send false K1i 2 5 4096 7 = (.error .E_INVAL, K1i) :=
  ⟨no_write_escalation_on_grant.1 false K1m 0 4096 2 8192 7
      (mkEnv 1 0 ENV_RUNNABLE [(4096, 7 * PGSIZE + (PTE_P ||| PTE_U))])
      (mkEnv 2 1 ENV_NOT_RUNNABLE [])
      (7, 7 * PGSIZE + (PTE_P ||| PTE_U))
      (by decide) (by decide) (by decide) (by decide) (by decide),
   no_write_escalation_on_grant.2 false K1i 2 5 4096 7
      (mkRecvEnv 2 1 0)
      (7, 7 * PGSIZE + (PTE_P ||| PTE_U))
      (by decide) (by decide) (by decide) (by decide) (by decide)
      (by decide) (by decide) (by decide)⟩

/-- C2: a successful sys_ipc_try_send to a NOT_RUNNABLE, waiting target
clears its receiving flag, stores the sender's id into ipc_from, the
message word into ipc_value, the transferred permission into ipc_perm (the
given perm when a page was transferred, 0 otherwise), zeroes its saved
eax, and sets its status RUNNABLE — all in the one non-preemptible
kernel step embodied by this function. -/
theorem ipc_send_success_wakes_receiver
    (noMem : Bool) (k : Kernel) (did value srcva perm : Nat) (de : Env)
    (hde : envid2env k did false = some de)
    (hst : de.env_status = ENV_NOT_RUNNABLE)
    (hrv : de.env_ipc_recving = true)
    (hok : (sys_ipc_try_send noMem k did value srcva perm).1 = .ok ()) :
    ∃ de',
      (sys_ipc_try_send noMem k did value srcva perm).2.getEnv de.env_id = some de' ∧
      de'.env_ipc_recving = false ∧
      de'.env_ipc_from = k.cur.env_id ∧
      de'.env_ipc_value = value ∧
      de'.env_ipc_perm = (if srcva < UTOP ∧ de.env_ipc_dstva < UTOP then perm else 0) ∧
      de'.env_tf.reg_eax = 0 ∧
      de'.env_status = ENV_RUNNABLE := by
  have hmem := envid2env_mem k did false de hde
  unfold sys_ipc_try_send at hok ⊢
  rw [hde] at hok ⊢
  dsimp only at hok ⊢
  rw [if_neg (by rw [hst, hrv]; simp)] at hok ⊢
  by_cases h3 : srcva < UTOP ∧ de.env_ipc_dstva < UTOP
  · rw [if_pos h3] at hok ⊢
    by_cases h4 : srcva % PGSIZE ≠ 0
    · rw [if_pos h4] at hok; exact Except.noConfusion hok
    · rw [if_neg h4] at hok ⊢
      cases h5 : page_lookup k.cur.env_pgdir srcva with
      | none => rw [h5] at hok; exact Except.noConfusion hok
      | some pg =>
        rw [h5] at hok
        dsimp only at hok ⊢
        by_cases h6 : pg.2 = 0
        · rw [if_pos h6] at hok; exact Except.noConfusion hok
        · rw [if_neg h6] at hok ⊢
          by_cases h7 : (PTE_U ||| PTE_P) &&& pg.2 ≠ (PTE_U ||| PTE_P)
          · rw [if_pos h7] at hok; exact Except.noConfusion hok
          · rw [if_neg h7] at hok ⊢
            by_cases h8 : perm &&& PTE_W = PTE_W ∧ PTE_W &&& pg.2 ≠ PTE_W
            · rw [if_pos h8] at hok; exact Except.noConfusion hok
            · rw [if_neg h8] at hok ⊢
              cases h9 : page_insert noMem k.ph de.env_pgdir pg.1 de.env_ipc_dstva perm with
              | none => rw [h9] at hok; exact Except.noConfusion hok
              | some ins =>
                dsimp only
                rw [if_pos h3]
                exact ⟨_, getEnv_setEnv _ _ hmem, rfl, rfl, rfl, rfl, rfl, rfl⟩
  · rw [if_neg h3] at hok ⊢
    rw [if_neg h3]
    exact ⟨_, getEnv_setEnv _ _ hmem, rfl, rfl, rfl, rfl, rfl, rfl⟩

/-- Witness for C2: a send with no page to the waiting environment 2 of K2
succeeds and wakes it with value 42, sender id 1, permission 0 and saved
eax 0. -/
theorem ipc_send_success_wakes_receiver_witness :
    ∃ de',
      (sys_ipc_try_send false K2 2 42 UTOP 0).2.getEnv (mkRecvEnv 2 1 UTOP).env_id =
        some de' ∧
      de'.env_ipc_recving = false ∧
      de'.env_ipc_from = K2.cur.env_id ∧
      de'.env_ipc_value = 42 ∧
      de'.env_ipc_perm = (if UTOP < UTOP ∧ (mkRecvEnv 2 1 UTOP).env_ipc_dstva < UTOP then 0 else 0) ∧
      de'.env_tf.reg_eax = 0 ∧
      de'.env_status = ENV_RUNNABLE :=
  ipc_send_success_wakes_receiver false K2 2 42 UTOP 0 (mkRecvEnv 2 1 UTOP)
    (by decide) rfl rfl rfl

/-- C3: every failing sys_ipc_try_send — unknown handle, receiver not
ready, invalid source address or permission, or out-of-memory on the page
insertion — leaves the whole kernel state, and in particular the target's
IPC fields, waiting flag and status, exactly as before the call. -/
theorem ipc_send_failure_all_or_nothing
    (noMem : Bool) (k : Kernel) (did value srcva perm : Nat) (e : Err)
    (hE : (sys_ipc_try_send noMem k did value srcva perm).1 = .error e) :
    (sys_ipc_try_send noMem k did value srcva perm).2 = k := by
  unfold sys_ipc_try_send at hE ⊢
  cases h1 : envid2env k did false with
  | none => rfl
  | some de =>
    rw [h1] at hE
    dsimp only at hE ⊢
    by_cases h2 : de.env_status ≠ ENV_NOT_RUNNABLE ∨ de.env_ipc_recving = false
    · rw [if_pos h2]
    · rw [if_neg h2] at hE ⊢
      by_cases h3 : srcva < UTOP ∧ de.env_ipc_dstva < UTOP
      · rw [if_pos h3] at hE ⊢
        by_cases h4 : srcva % PGSIZE ≠ 0
        · rw [if_pos h4]
        · rw [if_neg h4] at hE ⊢
          cases h5 : page_lookup k.cur.env_pgdir srcva with
          | none => rfl
          | some pg =>
            rw [h5] at hE
            dsimp only at hE ⊢
            by_cases h6 : pg.2 = 0
            · rw [if_pos h6]
            · rw [if_neg h6] at hE ⊢
              by_cases h7 : (PTE_U ||| PTE_P) &&& pg.2 ≠ (PTE_U ||| PTE_P)
              · rw [if_pos h7]
              · rw [if_neg h7] at hE ⊢
                by_cases h8 : perm &&& PTE_W = PTE_W ∧ PTE_W &&& pg.2 ≠ PTE_W
                · rw [if_pos h8]
                · rw [if_neg h8] at hE ⊢
                  cases h9 : page_insert noMem k.ph de.env_pgdir pg.1 de.env_ipc_dstva perm with
                  | none => rfl
                  | some ins => rw [h9] at hE; exact Except.noConfusion hE
      · rw [if_neg h3] at hE
        exact Except.noConfusion hE

/-- Witness for C3: a send to environment 3 of K2, which is not waiting,
fails with E_IPC_NOT_RECV and the post-state is exactly K2. -/
theorem ipc_send_failure_all_or_nothing_witness :
    (sys_ipc_try_send false K2 3 1 UTOP 0).1 = .error .E_IPC_NOT_RECV ∧
    (sys_ipc_try_send false K2 3 1 UTOP 0).2 = K2 :=
  ⟨rfl, ipc_send_failure_all_or_nothing false K2 3 1 UTOP 0 .E_IPC_NOT_RECV rfl⟩

/-- C8: a Receive with a valid dst_va (the no-page sentinel or a
page-aligned address below the split) records the receiving flag and the
normalized destination, sets the caller's status NOT_RUNNABLE — hence the
caller is not resumable, so control does not return to it on the success
path — and in every state the receiver can reach under send attempts it is
resumable only with its saved return-value register forced to zero and the
receiving flag cleared: the blocked Receive is observed as having returned
0 exactly when a matching send completed. -/
theorem ipc_recv_suspends_until_send (k : Kernel) (dstva : Nat)
    (hvalid : UTOP ≤ dstva ∨ dstva % PGSIZE = 0) :
    (sys_ipc_recv k dstva).1 = .ok () ∧
    (sys_ipc_recv k dstva).2.cur.env_ipc_recving = true ∧
    (sys_ipc_recv k dstva).2.cur.env_ipc_dstva = (if dstva < UTOP then dstva else UTOP) ∧
    (sys_ipc_recv k dstva).2.cur.env_status = ENV_NOT_RUNNABLE ∧
    ¬ Resumable (sys_ipc_recv k dstva).2.cur ∧
    (∀ r, ReachBySends (sys_ipc_recv k dstva).2.cur r → Resumable r →
      r.env_tf.reg_eax = 0 ∧ r.env_ipc_recving = false) := by
  have hpost : (sys_ipc_recv k dstva).1 = .ok () ∧
      (sys_ipc_recv k dstva).2.cur.env_ipc_recving = true ∧
      (sys_ipc_recv k dstva).2.cur.env_ipc_dstva = (if dstva < UTOP then dstva else UTOP) ∧
      (sys_ipc_recv k dstva).2.cur.env_status = ENV_NOT_RUNNABLE := by
    by_cases hlt : dstva < UTOP
    · have hal : ¬ dstva % PGSIZE ≠ 0 := by
        rcases hvalid with h | h
        · omega
        · simp [h]
      unfold sys_ipc_recv
      rw [if_pos hlt, if_neg hal]
      exact ⟨rfl, rfl, by rw [if_pos hlt], rfl⟩
    · unfold sys_ipc_recv
      rw [if_neg hlt]
      exact ⟨rfl, rfl, by rw [if_neg hlt], rfl⟩
  obtain ⟨hok, hrv, hdva, hst⟩ := hpost
  refine ⟨hok, hrv, hdva, hst, ?_, ?_⟩
  · intro hR
    unfold Resumable at hR
    rw [hst] at hR
    exact absurd hR (by decide)
  · intro r hreach hres
    have hinv := reach_preserves_recvInv _ r (Or.inl ⟨hst, hrv⟩) hreach
    rcases hinv with ⟨hs2, _⟩ | ⟨_, hax, hnr⟩
    · unfold Resumable at hres
      rw [hs2] at hres
      exact absurd hres (by decide)
    · exact ⟨hax, hnr⟩

/-- Witness for C8 at K8 with dstva 0 (page-aligned, below the split). -/
theorem ipc_recv_suspends_until_send_witness :
    (UTOP ≤ 0 ∨ 0 % PGSIZE = 0) ∧
    ((sys_ipc_recv K8 0).1 = .ok () ∧
     (sys_ipc_recv K8 0).2.cur.env_ipc_recving = true ∧
     (sys_ipc_recv K8 0).2.cur.env_ipc_dstva = (if 0 < UTOP then 0 else UTOP) ∧
     (sys_ipc_recv K8 0).2.cur.env_status = ENV_NOT_RUNNABLE ∧
     ¬ Resumable (sys_ipc_recv K8 0).2.cur ∧
     (∀ r, ReachBySends (sys_ipc_recv K8 0).2.cur r → Resumable r →
       r.env_tf.reg_eax = 0 ∧ r.env_ipc_recving = false)) :=
  ⟨Or.inr rfl, ipc_recv_suspends_until_send K8 0 (Or.inr rfl)⟩

/-- C10: the claim says sys_env_set_trapframe validates that the CALLER's
memory region holding the full frame is readable, terminating the caller
when it is not.  The code calls user_mem_assert(env, tf, 0, PTE_P): it
checks a ZERO-length region against the TARGET's address space.  Run with
the frame region entirely unmapped in the caller, the call neither
terminates the caller nor errors: it returns ok and copies the frame into
the target (68 is the byte size of the x86 frame; any positive length shows
the caller's region unreadable). -/
theorem set_trapframe_check_wrong_space :
    (sys_env_set_trapframe K8 2 4096 ⟨7, 9⟩).1 = .ok ∧
    user_mem_check K8.cur.env_pgdir 4096 68 PTE_P = false ∧
    (sys_env_set_trapframe K8 2 4096 ⟨7, 9⟩).2.getEnv 2 =
      some { mkEnv 2 1 ENV_NOT_RUNNABLE [] with env_tf := ⟨7, 9⟩ } :=
  ⟨rfl, by decide, rfl⟩

end Jos
